import Mathlib

/-!
A shallow embedding of the SDS CSV validator (`sds_validator.py`).

Conventions of the embedding:

* A CSV data row (a `csv.DictReader` row) is a `Record`: an association list
  from field name to string cell value.  `record.get(k)`-style truthiness tests
  become `getVal r k ≠ ""` (a `None` cell from a short row behaves like the
  empty string in every check the validator performs); `k in record` becomes
  `hasKey r k`.
* The two external format predicates (`email.utils.parseaddr` plus the checks
  in `_is_valid_email`, and the `phonenumbers` library in `_is_valid_phone`)
  are third-party code, not part of this repository; the pipeline is
  parameterised over them as `emailOk phoneOk : String → Bool`.
* The Python methods return a boolean and append `ValidationError`s to the
  run's list; a method returns `True` exactly when it appended nothing, so the
  embedding returns just the appended error list and treats emptiness as the
  boolean result.
* Filesystem paths are modelled as lists of path components
  (`os.path.join d c = d ++ [c]`); the actual writing of bytes is outside the
  model, but which path each artifact goes to is modelled faithfully.
* The mutable per-run state (`errors`, `data_cache`, `sourcedid_cache`,
  `removed_records`, plus the cleaned CSVs that get written out) is threaded
  explicitly as `ValidatorState`.  Python dict assignment `m[k] = v` is
  modelled by consing `(k, v)`; lookups see the newest binding, matching dict
  semantics for every key.
-/

/-- Mirrors the `ValidationError` dataclass of `sds_validator.py`. -/
structure ValidationError where
  file : String
  line : Nat
  field : String
  message : String
deriving DecidableEq

/-- One CSV data row: field name to cell value, as built by `csv.DictReader`. -/
abbrev Record := List (String × String)

/-- The `sourcedid_cache`: file name to its published accepted-identifier set. -/
abbrev Cache := List (String × List String)

/-- `record[k]` / `record.get(k)` with a missing or `None` cell read as `""`. -/
def getVal (r : Record) (k : String) : String := (r.lookup k).getD ""

/-- `k in record`. -/
def hasKey (r : Record) (k : String) : Bool := (r.lookup k).isSome

/-- The `headers` dict of `_validate_and_fix_file` (lines 76-84). -/
def headersTable : List (String × List String) :=
  [("orgs.csv", ["sourcedId", "name", "type", "parentSourcedId"]),
   ("users.csv", ["sourcedId", "username", "givenName", "familyName", "password",
                  "activeDirectoryMatchId", "email", "phone", "sms"]),
   ("roles.csv", ["userSourcedId", "orgSourcedId", "role", "sessionSourcedId",
                  "grade", "isPrimary", "roleStartDate", "roleEndDate"]),
   ("classes.csv", ["sourcedId", "orgSourcedId", "title", "sessionSourcedIds",
                    "courseSourcedId"]),
   ("enrollments.csv", ["classSourcedId", "userSourcedId", "role"]),
   ("academicSessions.csv", ["sourcedId", "title", "type", "startDate", "endDate",
                             "parentSourcedId"]),
   ("courses.csv", ["sourcedId", "orgSourcedId", "title", "courseCode", "grades"])]

/-- The `sds_v21_headers` dict (lines 87-90): the legacy-compatible variants. -/
def sdsV21HeadersTable : List (String × List String) :=
  [("roles.csv", ["sourcedId", "userSourcedId", "orgSourcedId", "role",
                  "sessionSourcedId"]),
   ("enrollments.csv", ["sourcedId", "classSourcedId", "userSourcedId", "role"])]

/-- `headers.get(filename, [])`. -/
def headersFor (filename : String) : List String :=
  (headersTable.lookup filename).getD []

/-- Python `set(a) == set(b)` on lists of strings: same elements. -/
def eqset (a b : List String) : Bool :=
  a.all (fun x => b.contains x) && b.all (fun x => a.contains x)

/-- Lines 98-100: the header matches the canonical set, or (for the two files
with a legacy variant) the SDS-V2.1 set. -/
def headerValid (filename : String) (actual : List String) : Bool :=
  eqset actual (headersFor filename) ||
    (match sdsV21HeadersTable.lookup filename with
     | some hs => eqset actual hs
     | none => false)

/-- Split a character list at every hyphen, as `date_str.split`-style
tokenisation of the `'%Y-%m-%d'` format does: the tokens between the two
literal `-` separators. -/
def splitOnHyphen : List Char → List (List Char)
  | [] => [[]]
  | c :: cs =>
    if c == '-' then [] :: splitOnHyphen cs
    else
      match splitOnHyphen cs with
      | [] => [[c]]
      | t :: ts => (c :: t) :: ts

/-- Numeric value of a digit-character list. -/
def natOfDigits (cs : List Char) : Nat :=
  cs.foldl (fun n c => n * 10 + (c.toNat - 48)) 0

/-- Gregorian leap-year rule, as used by `datetime.date`. -/
def isLeapYear (y : Nat) : Bool :=
  y % 4 == 0 && (y % 100 != 0 || y % 400 == 0)

/-- Length of a month, as enforced by the `datetime.date` constructor. -/
def daysInMonth (y m : Nat) : Nat :=
  if m == 2 then (if isLeapYear y then 29 else 28)
  else if m == 4 || m == 6 || m == 9 || m == 11 then 30
  else 31

/-- `strptime`'s `%Y` directive: exactly four digits. -/
def yearTokOk (cs : List Char) : Bool :=
  cs.length == 4 && cs.all Char.isDigit

/-- `strptime`'s `%m` directive (regex `1[0-2]|0[1-9]|[1-9]`): one digit 1-9,
or two digits with value 1-12. -/
def monthTokOk (cs : List Char) : Bool :=
  cs.all Char.isDigit && 1 ≤ natOfDigits cs &&
    (cs.length == 1 || (cs.length == 2 && natOfDigits cs ≤ 12))

/-- `strptime`'s `%d` directive (regex `3[01]|[12]\d|0[1-9]|[1-9]`): one digit
1-9, or two digits with value 1-31. -/
def dayTokOk (cs : List Char) : Bool :=
  cs.all Char.isDigit && 1 ≤ natOfDigits cs &&
    (cs.length == 1 || (cs.length == 2 && natOfDigits cs ≤ 31))

/-- `_is_valid_date` (lines 242-248): `datetime.strptime(date_str, '%Y-%m-%d')`
succeeds exactly when the string is `Y-M-D` where `Y` is four digits, `M` and
`D` match the `%m` / `%d` token shapes above (zero padding optional), nothing
is left over, and `datetime.date(Y, M, D)` is constructible (year at least 1,
day within the month). -/
def is_valid_date (s : String) : Bool :=
  match splitOnHyphen s.data with
  | [y, m, d] =>
    yearTokOk y && monthTokOk m && dayTokOk d &&
      (1 ≤ natOfDigits y && natOfDigits d ≤ daysInMonth (natOfDigits y) (natOfDigits m))
  | _ => false

/-- The date format as the specification words it: exact pattern `YYYY-MM-DD`
with a four-digit year and two-digit zero-padded month and day, denoting a
calendar-valid date.  Stated from the spec, for comparison with
`is_valid_date`. -/
def specDateOk (s : String) : Bool :=
  match splitOnHyphen s.data with
  | [y, m, d] =>
    y.length == 4 && y.all Char.isDigit &&
    m.length == 2 && m.all Char.isDigit &&
    d.length == 2 && d.all Char.isDigit &&
    1 ≤ natOfDigits y && 1 ≤ natOfDigits m && natOfDigits m ≤ 12 &&
    1 ≤ natOfDigits d && natOfDigits d ≤ daysInMonth (natOfDigits y) (natOfDigits m)
  | _ => false

/-- The `required` dict of `_validate_required_fields` (lines 163-171). -/
def requiredTable : List (String × List String) :=
  [("orgs.csv", ["sourcedId", "name", "type"]),
   ("users.csv", ["sourcedId", "username"]),
   ("roles.csv", ["userSourcedId", "orgSourcedId", "role"]),
   ("classes.csv", ["sourcedId", "orgSourcedId", "title"]),
   ("enrollments.csv", ["classSourcedId", "userSourcedId", "role"]),
   ("academicSessions.csv", ["sourcedId", "title", "type", "startDate", "endDate"]),
   ("courses.csv", ["sourcedId", "orgSourcedId", "title"])]

/-- The `sds_v21_required` dict (lines 173-176). -/
def sdsV21RequiredTable : List (String × List String) :=
  [("roles.csv", ["sourcedId", "userSourcedId", "orgSourcedId", "role"]),
   ("enrollments.csv", ["sourcedId", "classSourcedId", "userSourcedId", "role"])]

/-- Lines 179-183: the required-field list, switched to the V2.1 list when the
file has a legacy variant and the record carries a `sourcedId` key. -/
def reqFieldsFor (filename : String) (record : Record) : List String :=
  match sdsV21RequiredTable.lookup filename with
  | some flds =>
    if hasKey record "sourcedId" then flds else (requiredTable.lookup filename).getD []
  | none => (requiredTable.lookup filename).getD []

/-- `_validate_required_fields` (lines 185-192), as the list of findings
(field, message); the Python method returns `False` iff this is nonempty. -/
def requiredFindings (filename : String) (record : Record) : List (String × String) :=
  (reqFieldsFor filename record).filterMap (fun fld =>
    if getVal record fld == "" then
      some (fld, "Required field " ++ fld ++ " missing")
    else none)

/-- The email clause of `_validate_data_types` (lines 196-198). -/
def emailFinding (emailOk : String → Bool) (record : Record) : List (String × String) :=
  if hasKey record "email" && getVal record "email" != "" &&
      !emailOk (getVal record "email") then
    [("email", "Invalid email " ++ getVal record "email")]
  else []

/-- The phone clause of `_validate_data_types` (lines 199-201). -/
def phoneFinding (phoneOk : String → Bool) (record : Record) : List (String × String) :=
  if hasKey record "phone" && getVal record "phone" != "" &&
      !phoneOk (getVal record "phone") then
    [("phone", "Invalid phone " ++ getVal record "phone")]
  else []

/-- The four date fields checked by the loop at lines 202-205. -/
def dateFields : List String :=
  ["startDate", "endDate", "roleStartDate", "roleEndDate"]

/-- One iteration of the date loop (lines 203-205). -/
def dateFinding (record : Record) (dt : String) : List (String × String) :=
  if hasKey record dt && getVal record dt != "" &&
      !is_valid_date (getVal record dt) then
    [(dt, "Invalid date " ++ getVal record dt)]
  else []

/-- The `enabledUser` clause of `_validate_data_types` (lines 206-208); note
it fires on any present value other than the literals, empty included. -/
def boolFinding (record : Record) : List (String × String) :=
  if hasKey record "enabledUser" &&
      !(getVal record "enabledUser" == "true" || getVal record "enabledUser" == "false") then
    [("enabledUser", "Invalid boolean " ++ getVal record "enabledUser")]
  else []

/-- `_validate_data_types` (lines 194-209), as findings in emission order. -/
def typeFindings (emailOk phoneOk : String → Bool) (record : Record) :
    List (String × String) :=
  emailFinding emailOk record ++ phoneFinding phoneOk record ++
    (dateFields.map (dateFinding record)).flatten ++ boolFinding record

/-- Which files a given file's records are checked against, with the checked
field, in the order of the checks in `_validate_cross_reference`
(lines 211-227). -/
def referencedFiles (filename : String) : List (String × String) :=
  if filename == "roles.csv" then
    [("users.csv", "userSourcedId"), ("orgs.csv", "orgSourcedId")]
  else if filename == "enrollments.csv" then
    [("users.csv", "userSourcedId"), ("classes.csv", "classSourcedId")]
  else []

/-- One cross-reference clause: `if g in self.sourcedid_cache and
record[fld] not in self.sourcedid_cache[g]`. -/
def xrefCheck (cache : Cache) (record : Record) (g fld : String) :
    List (String × String) :=
  match cache.lookup g with
  | some ids =>
    if ids.contains (getVal record fld) then []
    else [(fld, "Missing ref " ++ getVal record fld)]
  | none => []

/-- `_validate_cross_reference` (lines 211-227), as findings in emission
order.  (The direct `record[...]` indexing of the Python is modelled by
`getVal`; see the header-safety theorem for why the keys are present on every
reachable record.) -/
def xrefFindings (filename : String) (record : Record) (cache : Cache) :
    List (String × String) :=
  ((referencedFiles filename).map (fun p => xrefCheck cache record p.1 p.2)).flatten

/-- `_validate_record` (lines 155-160): all three checks run, their errors
accumulate in order; the method returns `True` iff no finding was produced. -/
def recordFindings (emailOk phoneOk : String → Bool) (filename : String)
    (record : Record) (cache : Cache) : List (String × String) :=
  requiredFindings filename record ++ typeFindings emailOk phoneOk record ++
    xrefFindings filename record cache

/-- Turn findings into `ValidationError`s carrying the call site's file and
line, as the Python methods do when appending to `self.errors`. -/
def attachLine (filename : String) (line : Nat) (ps : List (String × String)) :
    List ValidationError :=
  ps.map (fun p => ⟨filename, line, p.1, p.2⟩)

/-- `_validate_record` packaged as the list of `ValidationError`s the call
appends for this record; the Python return value is `True` iff this list is
empty. -/
def validate_record (emailOk phoneOk : String → Bool) (filename : String)
    (record : Record) (line : Nat) (cache : Cache) : List ValidationError :=
  attachLine filename line (recordFindings emailOk phoneOk filename record cache)

/-- Line 119: `row.get('sourcedId') or row.get('classSourcedId') or ''`. -/
def keyOf (row : Record) : String :=
  if getVal row "sourcedId" != "" then getVal row "sourcedId"
  else getVal row "classSourcedId"

/-- Line 121: roles and enrollments are exempt from the duplicate check. -/
def dupExempt (filename : String) : Bool :=
  filename == "roles.csv" || filename == "enrollments.csv"

/-- `seen.add(sid)` on the set of already-seen keys. -/
def insertKey (s : String) (seen : List String) : List String :=
  if seen.contains s then seen else s :: seen

/-- Outcome of the per-row loop of `_validate_and_fix_file`: the cleaned rows,
the seen-key set, the removed rows, and the errors, each in emission order. -/
structure RowResult where
  cleaned : List Record
  seen : List String
  removed : List Record
  errors : List ValidationError
deriving DecidableEq

/-- The per-row loop of `_validate_and_fix_file` (lines 115-133): a duplicate
key in a non-exempt file is reported and removed before any other check; an
otherwise clean row is kept and its key registered; a failing row is removed. -/
def processRows (emailOk phoneOk : String → Bool) (filename : String) (cache : Cache) :
    List Record → Nat → List String → RowResult
  | [], _, seen => ⟨[], seen, [], []⟩
  | row :: rest, idx, seen =>
    let sid := keyOf row
    if !dupExempt filename && seen.contains sid then
      let r := processRows emailOk phoneOk filename cache rest (idx + 1) seen
      ⟨r.cleaned, r.seen, row :: r.removed,
        ⟨filename, idx, "sourcedId", "Duplicate sourcedId: " ++ sid⟩ :: r.errors⟩
    else
      let findings := recordFindings emailOk phoneOk filename row cache
      if findings.isEmpty then
        let r := processRows emailOk phoneOk filename cache rest (idx + 1) (insertKey sid seen)
        ⟨row :: r.cleaned, r.seen, r.removed, attachLine filename idx findings ++ r.errors⟩
      else
        let r := processRows emailOk phoneOk filename cache rest (idx + 1) seen
        ⟨r.cleaned, r.seen, row :: r.removed, attachLine filename idx findings ++ r.errors⟩

/-- Lines 138-141: the header variant used for the cleaned output file. -/
def outputHeadersFor (filename : String) (actual : List String) : List String :=
  match sdsV21HeadersTable.lookup filename with
  | some hs => if eqset actual hs then hs else headersFor filename
  | none => headersFor filename

/-- The message of lines 103-111 (list rendering simplified to comma joining;
no theorem relies on this text). -/
def headerMismatchMessage (filename : String) (actual : List String) : String :=
  let canon := String.intercalate "," (headersFor filename)
  let expected :=
    match sdsV21HeadersTable.lookup filename with
    | some hs => canon ++ " or " ++ String.intercalate "," hs
    | none => canon
  "Invalid header. Expected " ++ expected ++ ", got " ++ String.intercalate "," actual

/-- The validator's per-run mutable state, plus the cleaned CSVs written to
the output directory, recorded as `(file, header used, rows written)`. -/
structure ValidatorState where
  errors : List ValidationError
  data_cache : List (String × List Record)
  sourcedid_cache : Cache
  removed_records : List (String × List Record)
  outputs : List (String × List String × List Record)
deriving DecidableEq

/-- `_validate_and_fix_file` (lines 70-153) on an already-parsed file: header
mismatch records one line-1 error and stops; otherwise the row loop runs, the
cleaned CSV is written with the matched header variant, and the caches are
updated (`removed_records` only when something was removed, line 135). -/
def validate_and_fix_file (emailOk phoneOk : String → Bool) (filename : String)
    (actual : List String) (rows : List Record) (st : ValidatorState) : ValidatorState :=
  if !headerValid filename actual then
    { st with errors := st.errors ++
        [⟨filename, 1, "header", headerMismatchMessage filename actual⟩] }
  else
    let r := processRows emailOk phoneOk filename st.sourcedid_cache rows 2 []
    { errors := st.errors ++ r.errors
      data_cache := (filename, r.cleaned) :: st.data_cache
      sourcedid_cache := (filename, r.seen) :: st.sourcedid_cache
      removed_records :=
        if r.removed.isEmpty then st.removed_records
        else (filename, r.removed) :: st.removed_records
      outputs := (filename, outputHeadersFor filename actual, r.cleaned) :: st.outputs }

/-- One input file of a run: its name, its header row, and its data rows. -/
structure InputFile where
  name : String
  header : List String
  rows : List Record

/-- Line 43. -/
def requiredFiles : List String := ["orgs.csv", "users.csv", "roles.csv"]

/-- Line 44. -/
def optionalFiles : List String :=
  ["classes.csv", "enrollments.csv", "academicSessions.csv", "courses.csv"]

/-- `_validate_file_existence` (lines 61-68): one line-0 error per absent
required file. -/
def fileExistenceErrors (present : List String) : List ValidationError :=
  (requiredFiles.filter (fun f => !present.contains f)).map
    (fun f => ⟨f, 0, "", "Required file " ++ f ++ " not found"⟩)

/-- State at the start of a run: existence errors recorded, all caches empty. -/
def initialState (present : List String) : ValidatorState :=
  ⟨fileExistenceErrors present, [], [], [], []⟩

/-- `validate_all` (lines 28-59) on parsed inputs: existence check, then the
files processed in the fixed order required-then-optional, skipping absent
ones. -/
def validate_all (emailOk phoneOk : String → Bool) (inputs : List InputFile) :
    ValidatorState :=
  ((requiredFiles ++ optionalFiles).filterMap
      (fun f => inputs.find? (fun i => i.name == f))).foldl
    (fun st file => validate_and_fix_file emailOk phoneOk file.name file.header file.rows st)
    (initialState (inputs.map (fun i => i.name)))

/-- `os.path.join(directory_path, 'validated_output')` (line 25); paths are
component lists. -/
def output_directory (dir : List String) : List String := dir ++ ["validated_output"]

/-- `os.path.join(directory_path, 'validation_report.json')` (line 26). -/
def report_file (dir : List String) : List String := dir ++ ["validation_report.json"]

/-- `os.path.join(self.output_directory, filename)` (line 73): where a cleaned
file is written. -/
def cleanedFilePath (dir : List String) (filename : String) : List String :=
  output_directory dir ++ [filename]

/-- `isUnder base p`: the path `p` lies strictly beneath the directory `base`. -/
def isUnder : List String → List String → Bool
  | [], [] => false
  | [], _ :: _ => true
  | _ :: _, [] => false
  | a :: as, b :: bs => a == b && isUnder as bs

/-! ### General helper lemmas -/

theorem contains_iff_mem {l : List String} {x : String} :
    l.contains x = true ↔ x ∈ l := by
  simp

theorem eqset_mem_right {a b : List String} (h : eqset a b = true) {x : String}
    (hx : x ∈ b) : x ∈ a := by
  unfold eqset at h
  rw [Bool.and_eq_true, List.all_eq_true, List.all_eq_true] at h
  exact contains_iff_mem.mp (h.2 x hx)

theorem eqset_mem_left {a b : List String} (h : eqset a b = true) {x : String}
    (hx : x ∈ a) : x ∈ b := by
  unfold eqset at h
  rw [Bool.and_eq_true, List.all_eq_true, List.all_eq_true] at h
  exact contains_iff_mem.mp (h.1 x hx)

theorem isUnder_append (dir : List String) (as : List String) (h : as ≠ []) :
    isUnder dir (dir ++ as) = true := by
  induction dir with
  | nil =>
    cases as with
    | nil => exact absurd rfl h
    | cons a t => simp [isUnder]
  | cons d ds ih => simp [isUnder, ih]

theorem isUnder_append_singleton (dir : List String) (a b : String) :
    isUnder (dir ++ [a]) (dir ++ [b]) = false := by
  induction dir with
  | nil => simp [isUnder]
  | cons d ds ih => simp [isUnder, ih]

/-! ### C1 -/

/-- C1 counterexample: on the concrete input directory `data`, the report
artifact path constructed in `__init__` and returned by `validate_all` does
not lie inside the recreated `validated_output` subdirectory, contrary to the
claim. -/
theorem C1_counterexample :
    isUnder (output_directory ["data"]) (report_file ["data"]) = false := by
  decide

/-- C1 (amended): the cleaned output files are written beneath the input
directory in the cleared-and-recreated subdirectory `validated_output`, but
the JSON report returned by `validate_all` is written directly beneath the
input directory (`validation_report.json`), outside that subdirectory. -/
theorem C1_amended (dir : List String) (fname : String) :
    isUnder dir (output_directory dir) = true ∧
    isUnder (output_directory dir) (cleanedFilePath dir fname) = true ∧
    isUnder dir (report_file dir) = true ∧
    isUnder (output_directory dir) (report_file dir) = false := by
  refine ⟨isUnder_append dir ["validated_output"] (by simp), ?_,
    isUnder_append dir ["validation_report.json"] (by simp),
    isUnder_append_singleton dir _ _⟩
  exact isUnder_append (output_directory dir) [fname] (by simp)

/-! ### C2 -/

/-- C2 counterexample: `2023-1-5` is not in the exact zero-padded `YYYY-MM-DD`
pattern, yet `_is_valid_date` accepts it (Python's `strptime` tolerates
unpadded month and day), so `_validate_data_types` emits no `InvalidDate`
error for a record carrying it. -/
theorem C2_counterexample :
    is_valid_date "2023-1-5" = true ∧ specDateOk "2023-1-5" = false ∧
    typeFindings (fun _ => true) (fun _ => true) [("startDate", "2023-1-5")] = [] := by
  refine ⟨by decide, by decide, by decide⟩

theorem filter_emailFinding_ne (e : String → Bool) (r : Record) (dt : String)
    (h : ("email" == dt) = false) :
    (emailFinding e r).filter (fun q => q.1 == dt) = [] := by
  unfold emailFinding; split <;> simp [h]

theorem filter_phoneFinding_ne (p : String → Bool) (r : Record) (dt : String)
    (h : ("phone" == dt) = false) :
    (phoneFinding p r).filter (fun q => q.1 == dt) = [] := by
  unfold phoneFinding; split <;> simp [h]

theorem filter_boolFinding_ne (r : Record) (dt : String)
    (h : ("enabledUser" == dt) = false) :
    (boolFinding r).filter (fun q => q.1 == dt) = [] := by
  unfold boolFinding; split <;> simp [h]

theorem filter_dateFinding_ne (r : Record) (dt' dt : String)
    (h : (dt' == dt) = false) :
    (dateFinding r dt').filter (fun q => q.1 == dt) = [] := by
  unfold dateFinding; split <;> simp [h]

theorem filter_dateFinding_self (r : Record) (dt : String)
    (hk : hasKey r dt = true) (hne : getVal r dt ≠ "") :
    ((dateFinding r dt).filter (fun q => q.1 == dt)).length =
      (if is_valid_date (getVal r dt) then 0 else 1) := by
  unfold dateFinding
  cases hv : is_valid_date (getVal r dt) <;> simp [hk, hv, hne]

/-- C2 (amended): for each of the four date fields present and non-empty on a
record, `_validate_data_types` emits no `InvalidDate` error for that field
exactly when the value satisfies `strptime('%Y-%m-%d')` — four-digit year,
one- or two-digit month and day (zero padding optional), calendar-valid — and
exactly one `InvalidDate` error for that field otherwise. -/
theorem C2_amended (emailOk phoneOk : String → Bool) (record : Record)
    (dt : String) (hdt : dt ∈ dateFields) (hk : hasKey record dt = true)
    (hne : getVal record dt ≠ "") :
    ((typeFindings emailOk phoneOk record).filter (fun q => q.1 == dt)).length =
      (if is_valid_date (getVal record dt) then 0 else 1) := by
  fin_cases hdt <;>
  · simp only [typeFindings, dateFields, List.map_cons, List.map_nil,
      List.flatten_cons, List.flatten_nil, List.append_assoc, List.filter_append,
      List.length_append]
    rw [filter_emailFinding_ne _ _ _ (by decide), filter_phoneFinding_ne _ _ _ (by decide),
      filter_boolFinding_ne _ _ (by decide)]
    rw [filter_dateFinding_self record _ hk hne]
    repeat rw [filter_dateFinding_ne _ _ _ (by decide)]
    simp

/-- C2 witness: the amended statement instantiated at a record whose
`startDate` is the calendar-invalid `2023-02-30`. -/
theorem C2_witness :
    ((typeFindings (fun _ => true) (fun _ => true)
        [("startDate", "2023-02-30")]).filter (fun q => q.1 == "startDate")).length =
      (if is_valid_date (getVal [("startDate", "2023-02-30")] "startDate") then 0 else 1) :=
  C2_amended (fun _ => true) (fun _ => true) [("startDate", "2023-02-30")]
    "startDate" (by decide) (by decide) (by decide)

/-! ### C4 -/

/-- C4: a cross-reference field is checked against a referenced file's
accepted-identifier set only if that file has published its set into the
`sourcedid_cache`; when every referenced file is absent from the cache the
check passes with no findings, and any `MissingReference` finding names a
field whose referenced file is in the cache and lacks the record's value. -/
theorem C4_skip_semantics (filename : String) (record : Record) (cache : Cache) :
    ((∀ g ∈ (referencedFiles filename).map Prod.fst, cache.lookup g = none) →
      xrefFindings filename record cache = []) ∧
    (∀ q ∈ xrefFindings filename record cache,
      ∃ g ids, (g, q.1) ∈ referencedFiles filename ∧ cache.lookup g = some ids ∧
        ids.contains (getVal record q.1) = false) := by
  constructor
  · intro h
    unfold xrefFindings
    suffices H : ∀ l : List (String × String),
        (∀ g ∈ l.map Prod.fst, cache.lookup g = none) →
        (l.map (fun p => xrefCheck cache record p.1 p.2)).flatten = [] from
      H _ h
    intro l
    induction l with
    | nil => intro _; simp
    | cons p t ih =>
      intro h
      have h1 : cache.lookup p.1 = none := h p.1 (by simp)
      simp only [List.map_cons, List.flatten_cons]
      rw [ih fun g hg => h g (by simp [List.mem_map] at hg ⊢; exact .inr hg)]
      simp [xrefCheck, h1]
  · intro q hq
    unfold xrefFindings at hq
    rw [List.mem_flatten] at hq
    obtain ⟨ys, hys, hqy⟩ := hq
    rw [List.mem_map] at hys
    obtain ⟨p, hp, rfl⟩ := hys
    unfold xrefCheck at hqy
    split at hqy
    case h_1 ids hl =>
      split at hqy
      · simp at hqy
      · next hcon =>
        rw [List.mem_singleton] at hqy
        subst hqy
        rw [Bool.not_eq_true] at hcon
        exact ⟨p.1, ids, by simpa using hp, hl, hcon⟩
    case h_2 hl => simp at hqy

/-- C4 witness: a roles record validated while neither `users.csv` nor
`orgs.csv` has published a set produces no cross-reference finding. -/
theorem C4_witness :
    xrefFindings "roles.csv" [("userSourcedId", "u"), ("orgSourcedId", "o")] [] = [] :=
  (C4_skip_semantics "roles.csv" [("userSourcedId", "u"), ("orgSourcedId", "o")] []).1
    (fun _ _ => rfl)

/-! ### C3 -/

/-- C3 counterexample: a `users.csv` file whose two data rows share
`sourcedId = u1`, where the first row fails validation (empty `username`).
No `DuplicateSourcedId` error is emitted — the run's only error is the
required-field one — and it is the second row, not the first-seen one, that
is retained in the clean output, contrary to the claim. -/
theorem C3_counterexample :
    (let r1 : Record := [("sourcedId", "u1"), ("username", ""), ("givenName", ""),
      ("familyName", ""), ("password", ""), ("activeDirectoryMatchId", ""),
      ("email", ""), ("phone", ""), ("sms", "")]
     let r2 : Record := [("sourcedId", "u1"), ("username", "user2"), ("givenName", ""),
      ("familyName", ""), ("password", ""), ("activeDirectoryMatchId", ""),
      ("email", ""), ("phone", ""), ("sms", "")]
     let stF := validate_and_fix_file (fun _ => true) (fun _ => true) "users.csv"
       ["sourcedId", "username", "givenName", "familyName", "password",
        "activeDirectoryMatchId", "email", "phone", "sms"] [r1, r2]
       (initialState requiredFiles)
     getVal r1 "sourcedId" = getVal r2 "sourcedId" ∧
     stF.errors = [⟨"users.csv", 2, "username", "Required field username missing"⟩] ∧
     stF.data_cache.lookup "users.csv" = some [r2]) := by
  decide

/-- C3 (amended): when the first of the two rows sharing a `sourcedId` passes
every record check, the run emits exactly one `DuplicateSourcedId` error, at
the second row's line number 3, and the first-seen row is the one retained in
the clean list and the seen-key set; when the first row fails its checks, its
key is never registered and no `DuplicateSourcedId` error is emitted at all. -/
theorem C3_amended (emailOk phoneOk : String → Bool) (cache : Cache)
    (r1 r2 : Record) (hkey : keyOf r2 = keyOf r1)
    (hok : recordFindings emailOk phoneOk "users.csv" r1 cache = []) :
    processRows emailOk phoneOk "users.csv" cache [r1, r2] 2 [] =
      ⟨[r1], [keyOf r1], [r2],
       [⟨"users.csv", 3, "sourcedId", "Duplicate sourcedId: " ++ keyOf r2⟩]⟩ := by
  simp [processRows, dupExempt, insertKey, hok, hkey, attachLine]

/-- C3 witness: the amended statement at two concrete valid rows sharing
`sourcedId = u1`. -/
theorem C3_witness :
    processRows (fun _ => true) (fun _ => true) "users.csv" []
      [[("sourcedId", "u1"), ("username", "alice")],
       [("sourcedId", "u1"), ("username", "bob")]] 2 [] =
      ⟨[[("sourcedId", "u1"), ("username", "alice")]],
       [keyOf [("sourcedId", "u1"), ("username", "alice")]],
       [[("sourcedId", "u1"), ("username", "bob")]],
       [⟨"users.csv", 3, "sourcedId",
         "Duplicate sourcedId: " ++ keyOf [("sourcedId", "u1"), ("username", "bob")]⟩]⟩ :=
  C3_amended (fun _ => true) (fun _ => true) []
    [("sourcedId", "u1"), ("username", "alice")]
    [("sourcedId", "u1"), ("username", "bob")] (by decide) (by decide)

/-! ### C6 -/

/-- C6: a file whose header field set matches neither the canonical nor the
alternate variant leaves the state unchanged except for exactly one
line-1 `HeaderMismatch` error for that file: no row is validated, no clean
copy is emitted, no accepted-identifier set is published, and the removed
log, caches and outputs for every other file are untouched, so the rest of
the run proceeds from an otherwise identical state. -/
theorem C6_header_mismatch (e p : String → Bool) (filename : String)
    (actual : List String) (rows : List Record) (st : ValidatorState)
    (h : headerValid filename actual = false) :
    validate_and_fix_file e p filename actual rows st =
      { st with errors := st.errors ++
          [⟨filename, 1, "header", headerMismatchMessage filename actual⟩] } := by
  simp [validate_and_fix_file, h]

/-- C6 witness: a `users.csv` file with a bogus header. -/
theorem C6_witness :
    validate_and_fix_file (fun _ => true) (fun _ => true) "users.csv" ["bogus"] []
        (initialState requiredFiles) =
      { initialState requiredFiles with
          errors := (initialState requiredFiles).errors ++
            [⟨"users.csv", 1, "header", headerMismatchMessage "users.csv" ["bogus"]⟩] } :=
  C6_header_mismatch (fun _ => true) (fun _ => true) "users.csv" ["bogus"] []
    (initialState requiredFiles) (by decide)

/-! ### C10 -/

theorem processRows_cons (e p : String → Bool) (f : String) (c : Cache)
    (row : Record) (rest : List Record) (idx : Nat) (seen : List String) :
    processRows e p f c (row :: rest) idx seen =
      if !dupExempt f && seen.contains (keyOf row) then
        let r := processRows e p f c rest (idx + 1) seen
        ⟨r.cleaned, r.seen, row :: r.removed,
          ⟨f, idx, "sourcedId", "Duplicate sourcedId: " ++ keyOf row⟩ :: r.errors⟩
      else
        let findings := recordFindings e p f row c
        if findings.isEmpty then
          let r := processRows e p f c rest (idx + 1) (insertKey (keyOf row) seen)
          ⟨row :: r.cleaned, r.seen, r.removed, attachLine f idx findings ++ r.errors⟩
        else
          let r := processRows e p f c rest (idx + 1) seen
          ⟨r.cleaned, r.seen, row :: r.removed, attachLine f idx findings ++ r.errors⟩ :=
  rfl

/-- C10: every data row of a header-valid file lands in exactly one of the
clean list and the removed list — the two lists together are a permutation of
the input rows, so the clean count plus the removed count equals the row
count — and the clean list preserves the input order (it is a sublist of the
input). -/
theorem C10_row_partition (e p : String → Bool) (f : String) (c : Cache)
    (rows : List Record) (idx : Nat) (seen : List String) :
    ((processRows e p f c rows idx seen).cleaned ++
        (processRows e p f c rows idx seen).removed).Perm rows ∧
    (processRows e p f c rows idx seen).cleaned.Sublist rows ∧
    (processRows e p f c rows idx seen).cleaned.length +
        (processRows e p f c rows idx seen).removed.length = rows.length := by
  induction rows generalizing idx seen with
  | nil => simp [processRows]
  | cons row rest ih =>
    rw [processRows_cons]
    by_cases h1 : (!dupExempt f && seen.contains (keyOf row)) = true
    · obtain ⟨hp, hs, hl⟩ := ih (idx + 1) seen
      simp only [h1, if_true]
      refine ⟨List.perm_middle.trans (hp.cons row), hs.cons row, ?_⟩
      simp only [List.length_cons]
      omega
    · rw [Bool.not_eq_true] at h1
      simp only [h1, Bool.false_eq_true, if_false]
      by_cases h2 : (recordFindings e p f row c).isEmpty = true
      · obtain ⟨hp, hs, hl⟩ := ih (idx + 1) (insertKey (keyOf row) seen)
        simp only [h2, if_true]
        exact ⟨by simpa using hp.cons row, hs.cons₂ row,
          by simp only [List.length_cons]; omega⟩
      · rw [Bool.not_eq_true] at h2
        obtain ⟨hp, hs, hl⟩ := ih (idx + 1) seen
        simp only [h2, Bool.false_eq_true, if_false]
        refine ⟨List.perm_middle.trans (hp.cons row), hs.cons row, ?_⟩
        simp only [List.length_cons]
        omega

/-! ### C5 -/

theorem processRows_seen_spec (e p : String → Bool) (f : String) (c : Cache)
    (rows : List Record) :
    ∀ (idx : Nat) (seen : List String) (s : String),
      s ∈ (processRows e p f c rows idx seen).seen →
      s ∈ seen ∨ ∃ row, row ∈ (processRows e p f c rows idx seen).cleaned ∧
        keyOf row = s ∧ recordFindings e p f row c = [] := by
  induction rows with
  | nil =>
    intro idx seen s hs
    exact .inl (by simpa [processRows] using hs)
  | cons row rest ih =>
    intro idx seen s hs
    rw [processRows_cons] at hs ⊢
    by_cases h1 : (!dupExempt f && seen.contains (keyOf row)) = true
    · simp only [h1, if_true] at hs ⊢
      rcases ih (idx + 1) seen s hs with h | ⟨r', hr', hk, hf⟩
      · exact .inl h
      · exact .inr ⟨r', hr', hk, hf⟩
    · rw [Bool.not_eq_true] at h1
      simp only [h1, Bool.false_eq_true, if_false] at hs ⊢
      by_cases h2 : (recordFindings e p f row c).isEmpty = true
      · simp only [h2, if_true] at hs ⊢
        rcases ih (idx + 1) (insertKey (keyOf row) seen) s hs with h | ⟨r', hr', hk, hf⟩
        · unfold insertKey at h
          by_cases hc : seen.contains (keyOf row) = true
          · rw [if_pos hc] at h
            exact .inl h
          · rw [if_neg hc, List.mem_cons] at h
            rcases h with rfl | h
            · exact .inr ⟨row, List.mem_cons_self row _, rfl,
                List.isEmpty_iff.mp h2⟩
            · exact .inl h
        · exact .inr ⟨r', List.mem_cons_of_mem row hr', hk, hf⟩
      · rw [Bool.not_eq_true] at h2
        simp only [h2, Bool.false_eq_true, if_false] at hs ⊢
        rcases ih (idx + 1) seen s hs with h | ⟨r', hr', hk, hf⟩
        · exact .inl h
        · exact .inr ⟨r', hr', hk, hf⟩

/-- C5: every identifier in the accepted-identifier set a file publishes into
the `sourcedid_cache` is the key of some row that is retained in that file's
clean output and passed every record check (required fields, data types,
cross-references) — a row that failed any check, or was dropped as a
duplicate, never contributes its key to the published set. -/
theorem C5_published_keys_passed (e p : String → Bool) (f : String)
    (actual : List String) (rows : List Record) (st : ValidatorState)
    (h : headerValid f actual = true) (s : String)
    (hs : s ∈ (((validate_and_fix_file e p f actual rows st).sourcedid_cache.lookup f).getD [])) :
    ∃ row, row ∈ (((validate_and_fix_file e p f actual rows st).data_cache.lookup f).getD []) ∧
      keyOf row = s ∧ recordFindings e p f row st.sourcedid_cache = [] := by
  unfold validate_and_fix_file at hs ⊢
  simp only [h, Bool.not_true, Bool.false_eq_true, if_false] at hs ⊢
  simp only [List.lookup, beq_self_eq_true, Option.getD_some] at hs ⊢
  rcases processRows_seen_spec e p f st.sourcedid_cache rows 2 [] s hs with h0 | hrow
  · exact absurd h0 (List.not_mem_nil s)
  · exact hrow

/-- C5 witness: a single valid `users.csv` row publishes its `sourcedId` and
that identifier is the key of a retained, fully-passing row. -/
theorem C5_witness :
    ∃ row, row ∈ (((validate_and_fix_file (fun _ => true) (fun _ => true) "users.csv"
        ["sourcedId", "username", "givenName", "familyName", "password",
         "activeDirectoryMatchId", "email", "phone", "sms"]
        [[("sourcedId", "u1"), ("username", "alice")]]
        (initialState requiredFiles)).data_cache.lookup "users.csv").getD []) ∧
      keyOf row = "u1" ∧
      recordFindings (fun _ => true) (fun _ => true) "users.csv" row
        (initialState requiredFiles).sourcedid_cache = [] :=
  C5_published_keys_passed (fun _ => true) (fun _ => true) "users.csv"
    ["sourcedId", "username", "givenName", "familyName", "password",
     "activeDirectoryMatchId", "email", "phone", "sms"]
    [[("sourcedId", "u1"), ("username", "alice")]]
    (initialState requiredFiles) (by decide) "u1" (by decide)

/-! ### C8 -/

/-- C8 counterexample: a run on an empty directory records the three
`RequiredFileMissing` errors with line number 0, so not every recorded error
has a 1-based line number. -/
theorem C8_counterexample :
    (validate_all (fun _ => true) (fun _ => true) []).errors.all
      (fun err => decide (1 ≤ err.line)) = false := by
  decide

theorem processRows_errors_line (e p : String → Bool) (f : String) (c : Cache)
    (rows : List Record) :
    ∀ (idx : Nat) (seen : List String),
      ∀ err ∈ (processRows e p f c rows idx seen).errors, idx ≤ err.line := by
  induction rows with
  | nil =>
    intro idx seen err herr
    simp [processRows] at herr
  | cons row rest ih =>
    intro idx seen err herr
    rw [processRows_cons] at herr
    by_cases h1 : (!dupExempt f && seen.contains (keyOf row)) = true
    · simp only [h1, if_true, List.mem_cons] at herr
      rcases herr with rfl | herr
      · exact Nat.le_refl idx
      · exact Nat.le_of_succ_le (ih (idx + 1) seen err herr)
    · rw [Bool.not_eq_true] at h1
      simp only [h1, Bool.false_eq_true, if_false] at herr
      by_cases h2 : (recordFindings e p f row c).isEmpty = true
      · simp only [h2, if_true, List.mem_append] at herr
        rcases herr with herr | herr
        · obtain ⟨q, _, rfl⟩ := List.mem_map.mp herr
          exact Nat.le_refl idx
        · exact Nat.le_of_succ_le (ih (idx + 1) (insertKey (keyOf row) seen) err herr)
      · rw [Bool.not_eq_true] at h2
        simp only [h2, Bool.false_eq_true, if_false, List.mem_append] at herr
        rcases herr with herr | herr
        · obtain ⟨q, _, rfl⟩ := List.mem_map.mp herr
          exact Nat.le_refl idx
        · exact Nat.le_of_succ_le (ih (idx + 1) seen err herr)

/-- C8 (amended): errors recorded by header validation and by the per-row
pass carry 1-based line numbers (the header error is at line 1, row errors at
their row's number, starting at 2); but the file-existence errors of
`_validate_file_existence` carry line 0, so run-level errors are not all
1-based. -/
theorem C8_amended_lines (e p : String → Bool) (filename : String)
    (actual : List String) (rows : List Record) (st : ValidatorState)
    (present : List String) :
    (∀ err ∈ fileExistenceErrors present, err.line = 0) ∧
    (∀ err ∈ (validate_and_fix_file e p filename actual rows st).errors,
      err ∈ st.errors ∨ 1 ≤ err.line) := by
  constructor
  · intro err herr
    unfold fileExistenceErrors at herr
    obtain ⟨g, _, rfl⟩ := List.mem_map.mp herr
    rfl
  · intro err herr
    unfold validate_and_fix_file at herr
    by_cases h : headerValid filename actual = true
    · simp only [h, Bool.not_true, Bool.false_eq_true, if_false,
        List.mem_append] at herr
      rcases herr with herr | herr
      · exact .inl herr
      · have := processRows_errors_line e p filename st.sourcedid_cache rows 2 [] err herr
        exact .inr (by omega)
    · rw [Bool.not_eq_true] at h
      simp only [h, Bool.not_false, if_true, List.mem_append,
        List.mem_singleton] at herr
      rcases herr with herr | rfl
      · exact .inl herr
      · exact .inr (Nat.le_refl 1)

/-- C8 witness: the amended statement instantiated at an absent-files run
(line-0 existence error) and a header-mismatch file (line-1 error). -/
theorem C8_witness :
    (⟨"orgs.csv", 0, "", "Required file orgs.csv not found"⟩ : ValidationError).line = 0 ∧
    ((⟨"users.csv", 1, "header", headerMismatchMessage "users.csv" ["bogus"]⟩ :
        ValidationError) ∈ (initialState requiredFiles).errors ∨
      1 ≤ (⟨"users.csv", 1, "header", headerMismatchMessage "users.csv" ["bogus"]⟩ :
        ValidationError).line) :=
  ⟨(C8_amended_lines (fun _ => true) (fun _ => true) "users.csv" ["bogus"] []
      (initialState requiredFiles) []).1
      ⟨"orgs.csv", 0, "", "Required file orgs.csv not found"⟩ (by decide),
   (C8_amended_lines (fun _ => true) (fun _ => true) "users.csv" ["bogus"] []
      (initialState requiredFiles) []).2
      ⟨"users.csv", 1, "header", headerMismatchMessage "users.csv" ["bogus"]⟩
      (by
        have h : headerValid "users.csv" ["bogus"] = false := by decide
        simp [validate_and_fix_file, h])⟩

/-! ### C9 -/

theorem lookup_isSome_of_mem_keys {l : Record} {k : String}
    (h : k ∈ l.map Prod.fst) : (l.lookup k).isSome = true := by
  induction l with
  | nil => simp at h
  | cons a t ih =>
    obtain ⟨x, v⟩ := a
    rw [List.map_cons, List.mem_cons] at h
    by_cases hb : (k == x) = true
    · simp [List.lookup, hb]
    · have hk : k ∈ t.map Prod.fst := by
        rcases h with h | h
        · exact absurd (beq_iff_eq.mpr h) hb
        · exact h
      simp only [List.lookup, hb]
      exact ih hk

/-- C9: when a roles or enrollments header matched the canonical or the
alternate variant, every field name that `_validate_cross_reference` accesses
with direct indexing (`record['userSourcedId']`, `record['orgSourcedId']`,
`record['classSourcedId']`) is a header field, hence a key of every
`DictReader` row of the file — the `KeyError` branch is unreachable. -/
theorem C9_xref_access_safe (filename : String) (actual : List String)
    (r : Record) (h : headerValid filename actual = true)
    (hkeys : r.map Prod.fst = actual) :
    ∀ q ∈ referencedFiles filename, (r.lookup q.2).isSome = true := by
  intro q hq
  have hmem : q.2 ∈ actual := by
    unfold referencedFiles at hq
    split at hq
    · next hf =>
      rw [beq_iff_eq] at hf
      subst hf
      unfold headerValid headersFor at h
      simp only [headersTable, sdsV21HeadersTable, List.lookup, Option.getD_some,
        show (("roles.csv" == "orgs.csv") = false) from by decide,
        show (("roles.csv" == "users.csv") = false) from by decide,
        show (("roles.csv" == "roles.csv") = true) from by decide,
        Bool.or_eq_true] at h
      simp only [List.mem_cons, List.not_mem_nil, or_false] at hq
      rcases h with h | h <;> rcases hq with rfl | rfl <;>
        exact eqset_mem_right h (by decide)
    · next hf =>
      split at hq
      · next hf2 =>
        rw [beq_iff_eq] at hf2
        subst hf2
        unfold headerValid headersFor at h
        simp only [headersTable, sdsV21HeadersTable, List.lookup, Option.getD_some,
          show (("enrollments.csv" == "orgs.csv") = false) from by decide,
          show (("enrollments.csv" == "users.csv") = false) from by decide,
          show (("enrollments.csv" == "roles.csv") = false) from by decide,
          show (("enrollments.csv" == "classes.csv") = false) from by decide,
          show (("enrollments.csv" == "enrollments.csv") = true) from by decide,
          Bool.or_eq_true] at h
        simp only [List.mem_cons, List.not_mem_nil, or_false] at hq
        rcases h with h | h <;> rcases hq with rfl | rfl <;>
          exact eqset_mem_right h (by decide)
      · simp at hq
  rw [← hkeys] at hmem
  exact lookup_isSome_of_mem_keys hmem

/-- C9 witness: a legacy-variant roles record carries both fields the
cross-reference check indexes. -/
theorem C9_witness :
    (([("sourcedId", "r1"), ("userSourcedId", "u1"), ("orgSourcedId", "o1"),
       ("role", "teacher"), ("sessionSourcedId", "")] : Record).lookup
      (("users.csv", "userSourcedId") : String × String).2).isSome = true :=
  C9_xref_access_safe "roles.csv"
    ["sourcedId", "userSourcedId", "orgSourcedId", "role", "sessionSourcedId"]
    [("sourcedId", "r1"), ("userSourcedId", "u1"), ("orgSourcedId", "o1"),
     ("role", "teacher"), ("sessionSourcedId", "")]
    (by decide) (by decide) ("users.csv", "userSourcedId") (by decide)

/-! ### C7 -/

theorem perm_contains {a a' : List String} (h : a.Perm a') (x : String) :
    a.contains x = a'.contains x := by
  rw [Bool.eq_iff_iff]
  simp only [contains_iff_mem]
  exact ⟨fun hx => h.mem_iff.mp hx, fun hx => h.mem_iff.mpr hx⟩

theorem perm_all {a a' : List String} (h : a.Perm a') (p : String → Bool) :
    a.all p = a'.all p := by
  rw [Bool.eq_iff_iff]
  simp only [List.all_eq_true]
  exact ⟨fun H x hx => H x (h.mem_iff.mpr hx), fun H x hx => H x (h.mem_iff.mp hx)⟩

theorem eqset_perm {a a' : List String} (b : List String) (h : a.Perm a') :
    eqset a b = eqset a' b := by
  unfold eqset
  rw [perm_all h]
  have hc : (fun x => a.contains x) = (fun x => a'.contains x) :=
    funext (perm_contains h)
  rw [hc]

theorem headerValid_perm (f : String) {a a' : List String} (h : a.Perm a') :
    headerValid f a = headerValid f a' := by
  unfold headerValid
  cases hl : sdsV21HeadersTable.lookup f <;> simp [hl, eqset_perm _ h]

theorem lookup_perm {l₁ l₂ : Record} (h : l₁.Perm l₂) :
    (l₁.map Prod.fst).Nodup → ∀ k : String, l₁.lookup k = l₂.lookup k := by
  induction h with
  | nil => intro _ k; rfl
  | cons a h ih =>
    intro hnd k
    obtain ⟨x, v⟩ := a
    rw [List.map_cons, List.nodup_cons] at hnd
    by_cases hb : (k == x) = true
    · simp only [List.lookup, hb]
    · have hb' : (k == x) = false := by rwa [Bool.not_eq_true] at hb
      simp only [List.lookup, hb']
      exact ih hnd.2 k
  | swap a b l =>
    intro hnd k
    obtain ⟨x, xv⟩ := a
    obtain ⟨y, yv⟩ := b
    rw [List.map_cons, List.map_cons, List.nodup_cons, List.mem_cons] at hnd
    have hxy : ¬y = x := fun hyx => hnd.1 (.inl hyx)
    by_cases hky : (k == y) = true
    · have hky' := beq_iff_eq.mp hky
      have hkx : (k == x) = false := by
        rw [beq_eq_false_iff_ne]
        intro hkx'
        exact hxy (by rw [← hky', hkx'])
      simp only [List.lookup, hky, hkx]
    · have hky' : (k == y) = false := by rwa [Bool.not_eq_true] at hky
      by_cases hkx : (k == x) = true
      · simp only [List.lookup, hky', hkx]
      · have hkx' : (k == x) = false := by rwa [Bool.not_eq_true] at hkx
        simp only [List.lookup, hky', hkx']

  | trans h₁ h₂ ih₁ ih₂ =>
    intro hnd k
    have hnd₂ := ((h₁.map Prod.fst).nodup_iff).mp hnd
    exact (ih₁ hnd k).trans (ih₂ hnd₂ k)

theorem recordFindings_congr (e p : String → Bool) (f : String) (c : Cache)
    {r r' : Record} (h : ∀ k : String, r.lookup k = r'.lookup k) :
    recordFindings e p f r c = recordFindings e p f r' c := by
  unfold recordFindings requiredFindings reqFieldsFor typeFindings emailFinding
    phoneFinding boolFinding dateFinding xrefFindings xrefCheck getVal hasKey
  simp only [h]

/-- C7: header validation compares field sets, so permuting a file's header
row cannot change the `HeaderMismatch` outcome; and a record carries the same
field-to-value mapping however its columns were ordered (its keys are the
header fields, which contain no duplicates), so `_validate_record` produces
the identical errors. -/
theorem C7_order_independent (e p : String → Bool) (f : String)
    (actual actual' : List String) (r r' : Record) (cache : Cache) (line : Nat)
    (hperm : actual.Perm actual') (hr : r.Perm r')
    (hnd : (r.map Prod.fst).Nodup) :
    headerValid f actual = headerValid f actual' ∧
    validate_record e p f r line cache = validate_record e p f r' line cache :=
  ⟨headerValid_perm f hperm,
   by unfold validate_record
      rw [recordFindings_congr e p f cache (lookup_perm hr hnd)]⟩

/-- C7 witness: the enrollments header and a row, each rotated. -/
theorem C7_witness :
    headerValid "enrollments.csv" ["classSourcedId", "userSourcedId", "role"] =
      headerValid "enrollments.csv" ["role", "classSourcedId", "userSourcedId"] ∧
    validate_record (fun _ => true) (fun _ => true) "enrollments.csv"
        [("classSourcedId", "c1"), ("userSourcedId", "u1"), ("role", "student")] 2 [] =
      validate_record (fun _ => true) (fun _ => true) "enrollments.csv"
        [("role", "student"), ("classSourcedId", "c1"), ("userSourcedId", "u1")] 2 [] :=
  C7_order_independent (fun _ => true) (fun _ => true) "enrollments.csv"
    ["classSourcedId", "userSourcedId", "role"]
    ["role", "classSourcedId", "userSourcedId"]
    [("classSourcedId", "c1"), ("userSourcedId", "u1"), ("role", "student")]
    [("role", "student"), ("classSourcedId", "c1"), ("userSourcedId", "u1")]
    [] 2 (by decide) (by decide) (by decide)
